import Mathlib

/-!
Verification of the sigen-sam-strip backend server orchestration layer.

The definitions below shallowly embed the request/response plumbing of
`src/backend/server/app.py` (the live route table; the near-identical copies in
`rest_api.py` and `data/schema.py` are superseded drift) together with the wire
data types from `src/backend/server/data/data_types.py` and
`src/backend/server/inference/data_types.py`.  The inference capability
(`inference/predictor.py`) and the multipart builder (`inference/multipart.py`)
are not among the provided sources; where a claim depends on them they are
either abstracted as function parameters or modelled from the specification,
as flagged in the corresponding doc comments.
-/

/-- Mask, from inference/data_types.py: the RLE payload produced by the
inference capability, a `[h, w]` size and a run-length counts string. -/
structure Mask where
  size : List Int
  counts : String
deriving Repr, DecidableEq

/-- PropagateDataValue, from inference/data_types.py: one object's mask within
a per-frame inference result. -/
structure PropagateDataValue where
  object_id : Int
  mask : Mask
deriving Repr, DecidableEq

/-- PropagateDataResponse, from inference/data_types.py: a per-frame result of
the inference capability (frame index plus per-object masks). -/
structure PropagateDataResponse where
  frame_index : Int
  results : List PropagateDataValue
deriving Repr, DecidableEq

/-- RemoveObjectResponse, from inference/data_types.py: the capability's answer
to a remove_object request, one PropagateDataResponse per affected frame. -/
structure RemoveObjectResponse where
  results : List PropagateDataResponse
deriving Repr, DecidableEq

/-- RLEMask, from data/data_types.py: the wire-level RLE mask with its scan
order marker. -/
structure RLEMask where
  size : List Int
  counts : String
  order : String
deriving Repr, DecidableEq

/-- RLEMaskForObject, from data/data_types.py. -/
structure RLEMaskForObject where
  objectId : Int
  rleMask : RLEMask
deriving Repr, DecidableEq

/-- RLEMaskListOnFrame, from data/data_types.py: the FrameResult wire shape. -/
structure RLEMaskListOnFrame where
  frameIndex : Int
  rleMaskList : List RLEMaskForObject
deriving Repr, DecidableEq

/-- add_points route, app.py lines 380-406: the response mapping applied to the
capability's PropagateDataResponse (the part after `inference_api.add_points`;
the request construction forwards the validated body fields unchanged). -/
def add_points (response : PropagateDataResponse) : RLEMaskListOnFrame :=
  { frameIndex := response.frame_index
    rleMaskList := response.results.map (fun r =>
      { objectId := r.object_id
        rleMask := { counts := r.mask.counts, size := r.mask.size, order := "F" } }) }

/-- clear_points_in_frame route, app.py lines 437-458: the response mapping
applied to the capability's PropagateDataResponse. -/
def clear_points_in_frame (response : PropagateDataResponse) : RLEMaskListOnFrame :=
  { frameIndex := response.frame_index
    rleMaskList := response.results.map (fun r =>
      { objectId := r.object_id
        rleMask := { counts := r.mask.counts, size := r.mask.size, order := "F" } }) }

/-- remove_object route, app.py lines 409-434: the response mapping applied to
the capability's RemoveObjectResponse, one RLEMaskListOnFrame per affected
frame result. -/
def remove_object (response : RemoveObjectResponse) : List RLEMaskListOnFrame :=
  response.results.map (fun res =>
    { frameIndex := res.frame_index
      rleMaskList := res.results.map (fun r =>
        { objectId := r.object_id
          rleMask := { counts := r.mask.counts, size := r.mask.size, order := "F" } }) })

/-- PropagateInVideoRequest, from inference/data_types.py. -/
structure PropagateInVideoRequest where
  type : String
  session_id : String
  start_frame_index : Int
deriving Repr, DecidableEq

/-- JSON body of a propagate_in_video request as read by app.py lines 127-131:
`data["session_id"]` is required, `data.get("start_frame_index", 0)` is
optional, hence the Option. -/
structure PropagateInVideoBody where
  session_id : String
  start_frame_index : Option Int
deriving Repr, DecidableEq

/-- Fixed header block passed to the builder for every chunk of the
propagation stream, app.py lines 152-159. -/
def trackHeaders : List (String × String) :=
  [("Content-Type", "application/json; charset=utf-8"),
   ("Frame-Current", "-1"),
   ("Frame-Total", "-1"),
   ("Mask-Type", "RLE[]")]

/-- Header block rendering shared by the chunk builder: one `key: value` line
per header. -/
def headerBlock (headers : List (String × String)) : String :=
  String.join (headers.map (fun kv => kv.1 ++ ": " ++ kv.2 ++ "\r\n"))

/-- Modelled from the spec: `MultipartResponseBuilder.build(...).get_message()`
(inference/multipart.py is not among the provided sources).  Spec 4.5: each
chunk carries a header block followed by the JSON-serialized payload body,
separated and terminated per the multipart convention, delimited by the shared
boundary token. -/
def MultipartResponseBuilder.build (boundary : String)
    (headers : List (String × String)) (body : String) : String :=
  "--" ++ boundary ++ "\r\n" ++ headerBlock headers ++ "\r\n" ++ body ++ "\r\n"

/-- gen_track_with_mask_stream, app.py lines 138-161, on the success path: one
built chunk per capability result, in iteration order.  The JSON serializer
`chunk.to_json()` is abstracted as the `toJson` parameter. -/
def gen_track_with_mask_stream (boundary : String)
    (toJson : PropagateDataResponse → String)
    (results : List PropagateDataResponse) : List String :=
  results.map (fun chunk =>
    MultipartResponseBuilder.build boundary trackHeaders (toJson chunk))

/-- propagate_in_video route, app.py lines 126-135: parses the body (defaulting
start_frame_index to 0), fixes the boundary token "frame", and wraps the
generator's chunk stream in a response whose mimetype declares the boundary.
The capability is abstracted as a parameter; the first component exposes the
request forwarded to it. -/
def propagate_in_video (toJson : PropagateDataResponse → String)
    (data : PropagateInVideoBody)
    (capability : PropagateInVideoRequest → List PropagateDataResponse) :
    PropagateInVideoRequest × String × List String :=
  let boundary := "frame"
  let req : PropagateInVideoRequest :=
    { type := "propagate_in_video"
      session_id := data.session_id
      start_frame_index := data.start_frame_index.getD 0 }
  (req, "multipart/x-savi-stream; boundary=" ++ boundary,
    gen_track_with_mask_stream boundary toJson (capability req))

/-- One observable event of the propagation stream as seen by its consumer: a
yielded chunk, a terminal failure, or normal exhaustion. -/
inductive StreamEvent where
  | chunk (message : String)
  | failed (error : String)
  | closed
deriving Repr, DecidableEq

/-- gen_track_with_mask_stream, app.py lines 138-161, under Python generator
semantics with a fallible capability iteration (each element of the list is one
iteration attempt of `inference_api.propagate_in_video`): every successful
iteration of the for loop yields one built chunk; an exception raised by the
capability propagates out of the generator frame, so the generator terminates
(a Python generator cannot yield again after an exception escapes it) and the
consumer observes the failure as the terminal event after the already-yielded
chunks; normal exhaustion ends the stream with a clean close. -/
def gen_track_events (boundary : String)
    (toJson : PropagateDataResponse → String) :
    List (Except String PropagateDataResponse) → List StreamEvent
  | [] => [StreamEvent.closed]
  | Except.ok r :: rest =>
      StreamEvent.chunk (MultipartResponseBuilder.build boundary trackHeaders (toJson r)) ::
        gen_track_events boundary toJson rest
  | Except.error e :: _ => [StreamEvent.failed e]

/-- First failure of a capability iteration sequence, if any. -/
def firstFailure : List (Except String PropagateDataResponse) → Option String
  | [] => none
  | Except.ok _ :: rest => firstFailure rest
  | Except.error e :: _ => some e

/-- Results successfully yielded before the first failure. -/
def okResults : List (Except String PropagateDataResponse) → List PropagateDataResponse
  | [] => []
  | Except.ok r :: rest => r :: okResults rest
  | Except.error _ :: _ => []

/-- CloseSessionRequest, from inference/data_types.py. -/
structure CloseSessionRequest where
  type : String
  session_id : String
deriving Repr, DecidableEq

/-- CloseSessionResponse, from inference/data_types.py. -/
structure CloseSessionResponse where
  success : Bool
deriving Repr, DecidableEq

/-- CloseSession wire response, from data/data_types.py. -/
structure CloseSession where
  success : Bool
deriving Repr, DecidableEq

/-- Modelled from the spec: `inference_api.close_session`
(inference/predictor.py is not among the provided sources).  Spec 4.2: close
marks the session dead and releases its resources; it is idempotent, and
closing an already-closed or unknown session is not an error: it reports
success = false to signal a no-op.  The store's state is modelled as the list
of live session ids; the operation is total (it never fails). -/
def inference_close_session (live : List String) (request : CloseSessionRequest) :
    CloseSessionResponse × List String :=
  if live.contains request.session_id then
    ({ success := true }, live.filter (fun s => !(s == request.session_id)))
  else
    ({ success := false }, live)

/-- close_session route, app.py lines 365-377: builds the CloseSessionRequest,
forwards it, and wraps the capability's success flag; there is no branching and
no failure path (the embedding is a total function). -/
def close_session (live : List String) (sessionId : String) :
    CloseSession × List String :=
  let request_obj : CloseSessionRequest :=
    { type := "close_session", session_id := sessionId }
  let r := inference_close_session live request_obj
  ({ success := r.1.success }, r.2)

/-- StartSessionRequest, from inference/data_types.py (the optional session_id
field is never set by the routes and is omitted). -/
structure StartSessionRequest where
  type : String
  path : String
deriving Repr, DecidableEq

/-- StartSession wire response, from data/data_types.py. -/
structure StartSession where
  sessionId : String
deriving Repr, DecidableEq

/-- Outcome of the start_session route: a StartSession payload or an error
response with a message body and an HTTP status code. -/
inductive StartSessionResult where
  | ok (resp : StartSession)
  | errorResponse (message : String) (status : Nat)
deriving Repr, DecidableEq

/-- start_session route, app.py lines 348-362: an empty path returns the
("Path is required", 400) error before any capability call; otherwise the
route forwards `DATA_PATH ++ "/" ++ path` and wraps the session id produced by
the capability (abstracted as a parameter).  The second component records the
requests sent to the capability, so that non-invocation is observable. -/
def start_session (DATA_PATH : String) (capability : StartSessionRequest → String)
    (path : String) : StartSessionResult × List StartSessionRequest :=
  if path = "" then
    (StartSessionResult.errorResponse "Path is required" 400, [])
  else
    let request_obj : StartSessionRequest :=
      { type := "start_session", path := DATA_PATH ++ "/" ++ path }
    (StartSessionResult.ok { sessionId := capability request_obj }, [request_obj])

/-- The get_start_sec_duration_sec helper, app.py lines 175-188 (identical
copies in api_utils.py and data/schema.py).  Python floats are modelled as
rationals (the function only passes values through and takes a min, so no
rounding occurs); the `int(os.environ.get("VIDEO_ENCODE_SEEK_TIME", "0"))`
lookup is modelled by the integer parameter `default_seek_t`, its parsed
value (0 when the variable is unset). -/
def get_start_sec_duration_sec (default_seek_t : Int)
    (start_time_sec : Option ℚ) (duration_time_sec : Option ℚ)
    (max_time : ℚ) : ℚ × ℚ :=
  let s : ℚ :=
    match start_time_sec with
    | none => (default_seek_t : ℚ)
    | some sv => sv
  let d : ℚ :=
    match duration_time_sec with
    | some dv => min dv max_time
    | none => max_time
  (s, d)

/-- Helper: mapping a function over a list relates the image to the original
list pointwise, in order. -/
theorem forall2_map_left {α β : Type} (f : α → β) (R : β → α → Prop)
    (h : ∀ x, R (f x) x) : (l : List α) → List.Forall₂ R (l.map f) l
  | [] => List.Forall₂.nil
  | x :: xs => List.Forall₂.cons (h x) (forall2_map_left f R h xs)

/-- C2: every RLE mask in every response emitted by add_points,
clear_points_in_frame and remove_object has its order field equal to "F"
(column-major scan order), for every possible inference result. -/
theorem C2_order_always_F (p q : PropagateDataResponse) (rm : RemoveObjectResponse) :
    ((add_points p).rleMaskList.all (fun e => e.rleMask.order == "F")) = true ∧
    ((clear_points_in_frame q).rleMaskList.all (fun e => e.rleMask.order == "F")) = true ∧
    ((remove_object rm).all (fun fr =>
        fr.rleMaskList.all (fun e => e.rleMask.order == "F"))) = true := by
  refine ⟨?_, ?_, ?_⟩ <;>
    simp [add_points, clear_points_in_frame, remove_object, List.all_map, Function.comp]

/-- C3: add_points returns a single FrameResult whose frameIndex equals the
capability's frame index and whose rleMaskList pairs up with the capability's
results one-to-one, in the same order, each entry preserving the result's
object id and its mask's counts and size unchanged. -/
theorem C3_add_points_preserves (response : PropagateDataResponse) :
    (add_points response).frameIndex = response.frame_index ∧
    List.Forall₂ (fun entry r =>
        entry.objectId = r.object_id ∧
        entry.rleMask.counts = r.mask.counts ∧
        entry.rleMask.size = r.mask.size)
      (add_points response).rleMaskList response.results := by
  exact ⟨rfl, forall2_map_left _ _ (fun r => ⟨rfl, rfl, rfl⟩) response.results⟩

/-- C4: remove_object returns a list of FrameResults pairing up one-to-one and
in order with the affected-frame results reported by the capability, each
preserving that frame's index and its per-object mask list (object ids,
counts, size) unchanged. -/
theorem C4_remove_object_preserves (response : RemoveObjectResponse) :
    List.Forall₂ (fun fr res =>
        fr.frameIndex = res.frame_index ∧
        List.Forall₂ (fun entry r =>
            entry.objectId = r.object_id ∧
            entry.rleMask.counts = r.mask.counts ∧
            entry.rleMask.size = r.mask.size)
          fr.rleMaskList res.results)
      (remove_object response) response.results := by
  exact forall2_map_left _ _
    (fun res => ⟨rfl, forall2_map_left _ _ (fun r => ⟨rfl, rfl, rfl⟩) res.results⟩)
    response.results

/-- C8: when the propagate_in_video body omits start_frame_index the request
forwarded to the capability carries 0; when the body supplies a value, that
exact value is forwarded. -/
theorem C8_start_frame_index_default
    (toJson : PropagateDataResponse → String)
    (capability : PropagateInVideoRequest → List PropagateDataResponse)
    (sid : String) :
    (propagate_in_video toJson
        { session_id := sid, start_frame_index := none } capability).1.start_frame_index
      = 0 ∧
    ∀ v : Int,
      (propagate_in_video toJson
          { session_id := sid, start_frame_index := some v } capability).1.start_frame_index
        = v := by
  exact ⟨rfl, fun v => rfl⟩

/-- Helper: a chunk built with the fixed propagation headers and boundary
"frame" is exactly the literal header block followed by the body and the
terminating line. -/
theorem build_track_chunk (b : String) :
    MultipartResponseBuilder.build "frame" trackHeaders b =
      "--frame\r\nContent-Type: application/json; charset=utf-8\r\nFrame-Current: -1\r\nFrame-Total: -1\r\nMask-Type: RLE[]\r\n\r\n"
        ++ b ++ "\r\n" := by
  have h : ("--" ++ "frame" ++ "\r\n" ++ headerBlock trackHeaders ++ "\r\n" : String) =
      "--frame\r\nContent-Type: application/json; charset=utf-8\r\nFrame-Current: -1\r\nFrame-Total: -1\r\nMask-Type: RLE[]\r\n\r\n" := by
    decide
  unfold MultipartResponseBuilder.build
  rw [← h]

/-- C1: for every sequence of capability results, the propagate_in_video
response stream pairs up one multipart chunk per result, in the same order,
each chunk consisting of the boundary line for the token "frame", the fixed
header block (Content-Type, Frame-Current, Frame-Total, Mask-Type), a blank
line and the JSON-serialized result body; and the response's mimetype declares
that same boundary token. -/
theorem C1_propagate_stream_shape (toJson : PropagateDataResponse → String)
    (data : PropagateInVideoBody)
    (capability : PropagateInVideoRequest → List PropagateDataResponse) :
    (propagate_in_video toJson data capability).2.1 =
        "multipart/x-savi-stream; boundary=frame" ∧
    List.Forall₂ (fun message result =>
        message =
          "--frame\r\nContent-Type: application/json; charset=utf-8\r\nFrame-Current: -1\r\nFrame-Total: -1\r\nMask-Type: RLE[]\r\n\r\n"
            ++ toJson result ++ "\r\n")
      (propagate_in_video toJson data capability).2.2
      (capability (propagate_in_video toJson data capability).1) := by
  constructor
  · rfl
  · exact forall2_map_left _ _ (fun r => build_track_chunk (toJson r)) _

/-- C5: when the capability fails partway through a propagation run, the
stream the consumer observes is exactly the chunks already emitted for the
successful prefix followed by the failure as the terminal event; no chunk is
emitted after it and the sequence terminates (the generator is torn down
rather than left open). -/
theorem C5_failure_terminates_stream (toJson : PropagateDataResponse → String)
    (attempts : List (Except String PropagateDataResponse)) (e : String)
    (h : firstFailure attempts = some e) :
    gen_track_events "frame" toJson attempts =
      (okResults attempts).map (fun r =>
        StreamEvent.chunk (MultipartResponseBuilder.build "frame" trackHeaders (toJson r)))
        ++ [StreamEvent.failed e] := by
  induction attempts with
  | nil => simp [firstFailure] at h
  | cons a rest ih =>
    cases a with
    | ok r =>
      have h' : firstFailure rest = some e := h
      simp [gen_track_events, okResults, ih h']
    | error e' =>
      have h' : e' = e := by
        simpa [firstFailure] using h
      simp [gen_track_events, okResults, h']

/-- Witness for C5 at a concrete failing run: one successful result then a
capability failure yields the one built chunk and the terminal failure
event. -/
theorem C5_failure_terminates_stream_witness :
    gen_track_events "frame" (fun _ => "x")
        [Except.ok { frame_index := 0, results := [] }, Except.error "boom"] =
      [StreamEvent.chunk (MultipartResponseBuilder.build "frame" trackHeaders "x"),
       StreamEvent.failed "boom"] := by
  have h := C5_failure_terminates_stream (fun _ => "x")
    [Except.ok { frame_index := 0, results := [] }, Except.error "boom"] "boom" rfl
  simpa [okResults] using h

/-- C6: close_session wraps exactly the success flag reported by the
capability, and that flag is true precisely when the session id is still live;
in particular an unknown or already-closed id yields success = false, and the
operation is total (no failure path). -/
theorem C6_close_session_success_flag (live : List String) (sessionId : String) :
    (close_session live sessionId).1.success =
        (inference_close_session live
          { type := "close_session", session_id := sessionId }).1.success ∧
    (close_session live sessionId).1.success = live.contains sessionId := by
  constructor
  · rfl
  · unfold close_session inference_close_session
    by_cases h : sessionId ∈ live
    · simp [h]
    · simp [h]

/-- C7: an empty path makes start_session return the 400 error response
without sending any request to the inference capability; a non-empty path
makes it return the session id produced by the capability for the forwarded
request. -/
theorem C7_start_session_path_check (DATA_PATH : String)
    (capability : StartSessionRequest → String) (path : String) :
    (path = "" →
      start_session DATA_PATH capability path =
        (StartSessionResult.errorResponse "Path is required" 400, [])) ∧
    (path ≠ "" →
      start_session DATA_PATH capability path =
        (StartSessionResult.ok
            { sessionId := capability
                { type := "start_session", path := DATA_PATH ++ "/" ++ path } },
         [{ type := "start_session", path := DATA_PATH ++ "/" ++ path }])) := by
  constructor
  · intro h
    simp [start_session, h]
  · intro h
    simp [start_session, h]

/-- Witness for C7 at concrete inputs: the empty path is rejected with no
capability request, and a non-empty path yields the capability's id. -/
theorem C7_start_session_path_check_witness :
    start_session "data" (fun r => r.path) "" =
      (StartSessionResult.errorResponse "Path is required" 400, []) ∧
    start_session "data" (fun r => r.path) "v.mp4" =
      (StartSessionResult.ok { sessionId := "data/v.mp4" },
       [{ type := "start_session", path := "data/v.mp4" }]) := by
  constructor
  · exact (C7_start_session_path_check "data" (fun r => r.path) "").1 rfl
  · have h := (C7_start_session_path_check "data" (fun r => r.path) "v.mp4").2 (by decide)
    exact h.trans (by decide)

/-- C9: for every non-empty client path, the only request start_session sends
to the capability carries the path DATA_PATH, a slash, and the client path
concatenated in that order, and that forwarded path is never the raw client
path itself. -/
theorem C9_forwarded_path_prefixed (DATA_PATH : String)
    (capability : StartSessionRequest → String) (path : String) (h : path ≠ "") :
    (start_session DATA_PATH capability path).2.map (fun r => r.path) =
        [DATA_PATH ++ "/" ++ path] ∧
    DATA_PATH ++ "/" ++ path ≠ path := by
  constructor
  · simp [start_session, h]
  · intro hc
    have hlen := congrArg String.length hc
    rw [String.length_append, String.length_append] at hlen
    have hone : ("/" : String).length = 1 := rfl
    rw [hone] at hlen
    omega

/-- Witness for C9 at a concrete input: the capability sees only the
DATA_PATH-prefixed path, which differs from the raw client path. -/
theorem C9_forwarded_path_prefixed_witness :
    (start_session "data" (fun r => r.path) "v.mp4").2.map (fun r => r.path) =
      ["data/v.mp4"] ∧
    "data" ++ "/" ++ "v.mp4" ≠ "v.mp4" := by
  have h := C9_forwarded_path_prefixed "data" (fun r => r.path) "v.mp4" (by decide)
  exact ⟨h.1.trans (by decide), h.2⟩

/-- C10: the duration returned by get_start_sec_duration_sec never exceeds
max_time, equalling min(duration_time_sec, max_time) when a duration is
supplied and max_time otherwise; the returned start time is start_time_sec
when supplied and the environment-configured default seek time otherwise. -/
theorem C10_duration_capped (default_seek_t : Int)
    (start_time_sec : Option ℚ) (duration_time_sec : Option ℚ) (max_time : ℚ) :
    (get_start_sec_duration_sec default_seek_t start_time_sec duration_time_sec
        max_time).2 ≤ max_time ∧
    (∀ dv, duration_time_sec = some dv →
      (get_start_sec_duration_sec default_seek_t start_time_sec duration_time_sec
          max_time).2 = min dv max_time) ∧
    (duration_time_sec = none →
      (get_start_sec_duration_sec default_seek_t start_time_sec duration_time_sec
          max_time).2 = max_time) ∧
    (∀ sv, start_time_sec = some sv →
      (get_start_sec_duration_sec default_seek_t start_time_sec duration_time_sec
          max_time).1 = sv) ∧
    (start_time_sec = none →
      (get_start_sec_duration_sec default_seek_t start_time_sec duration_time_sec
          max_time).1 = (default_seek_t : ℚ)) := by
  refine ⟨?_, ?_, ?_, ?_, ?_⟩
  · cases duration_time_sec with
    | none => simp [get_start_sec_duration_sec]
    | some dv =>
      simp only [get_start_sec_duration_sec]
      exact min_le_right dv max_time
  · intro dv hdv
    subst hdv
    rfl
  · intro hd
    subst hd
    rfl
  · intro sv hsv
    subst hsv
    rfl
  · intro hs
    subst hs
    rfl

/-- Witness for C10 at concrete inputs: a supplied duration is capped by
max_time, an omitted one defaults to max_time, and the start time follows the
supplied value or the default seek time. -/
theorem C10_duration_capped_witness :
    (get_start_sec_duration_sec 7 none (some 5) 3).2 ≤ 3 ∧
    (get_start_sec_duration_sec 7 none (some 5) 3).2 = min 5 3 ∧
    (get_start_sec_duration_sec 7 (some 2) none 3).2 = 3 ∧
    (get_start_sec_duration_sec 7 (some 2) none 3).1 = 2 ∧
    (get_start_sec_duration_sec 7 none (some 5) 3).1 = (7 : ℚ) := by
  have h1 := C10_duration_capped 7 none (some 5) 3
  have h2 := C10_duration_capped 7 (some 2) none 3
  exact ⟨h1.1, h1.2.1 5 rfl, h2.2.2.1 rfl, h2.2.2.2.1 2 rfl, h1.2.2.2.2 rfl⟩
